import Mathlib

/-!
Shallow embedding of `create-stylish-app` (src/index.js, current tarball-based
revision) and verification of the frozen claims about it.

JavaScript values and objects are modelled as follows: a parsed JSON document
(the package manifest) is a `JVal`, whose object form is an association list
with the key order and uniqueness produced by `JSON.parse`; JavaScript strings
appearing in path computations are modelled as `List Char` where structural
reasoning is needed, and as `String` elsewhere.
-/

set_option autoImplicit false

namespace CreateStylishApp

/-- A parsed JSON value, as produced by `JSON.parse`. Objects are ordered
association lists; `JSON.parse` never yields duplicate keys, but none of the
theorems below depend on that. -/
inductive JVal where
  | str (s : String)
  | num (n : Int)
  | bool (b : Bool)
  | null
  | arr (elems : List JVal)
  | obj (fields : List (String × JVal))

/-- An object document: the toplevel of a parsed `package.json`. -/
abbrev Manifest := List (String × JVal)

/-- Field lookup on a JavaScript object (`o[k]`, with `undefined` mapped to
`none`): the first binding of the key, if any. -/
def getKey : Manifest → String → Option JVal
  | [], _ => none
  | kv :: t, k => if kv.1 = k then some kv.2 else getKey t k

/-- The rest-destructuring `const { description, author, ...next } = o` drops a
key from the object, keeping the remaining fields in order (no error when the
key is absent). -/
def removeKey (k : String) : Manifest → Manifest
  | [] => []
  | kv :: t => if kv.1 = k then removeKey k t else kv :: removeKey k t

/-- Model of `Object.assign(o, \x7b k: v \x7d)`: an existing key keeps its position and gets
the new value, a fresh key is appended at the end. -/
def objAssign : Manifest → String → JVal → Manifest
  | [], k, v => [(k, v)]
  | kv :: t, k, v => if kv.1 = k then (k, v) :: t else kv :: objAssign t k v

/-- The manifest rewrite performed by `buildPackageJson` (src/index.js lines
365-386): drop `description` and `author` via rest destructuring, then
`Object.assign` the app name and the fixed version `0.1.0`. -/
def buildPackageJson (m : Manifest) (appName : String) : Manifest :=
  objAssign
    (objAssign (removeKey "author" (removeKey "description" m)) "name" (.str appName))
    "version" (.str "0.1.0")

theorem getKey_removeKey_self (k : String) (m : Manifest) :
    getKey (removeKey k m) k = none := by
  induction m with
  | nil => rfl
  | cons kv t ih =>
    by_cases h : kv.1 = k
    · simpa [removeKey, h] using ih
    · simpa [removeKey, getKey, h] using ih

theorem getKey_removeKey_other {k k' : String} (h : k' ≠ k) (m : Manifest) :
    getKey (removeKey k m) k' = getKey m k' := by
  have h' : k ≠ k' := fun hx => h hx.symm
  induction m with
  | nil => rfl
  | cons kv t ih =>
    by_cases hk : kv.1 = k
    · simpa [removeKey, getKey, hk, h'] using ih
    · by_cases hk' : kv.1 = k'
      · simp [removeKey, getKey, hk, hk', h]
      · simpa [removeKey, getKey, hk, hk'] using ih

theorem getKey_objAssign_self (m : Manifest) (k : String) (v : JVal) :
    getKey (objAssign m k v) k = some v := by
  induction m with
  | nil => simp [objAssign, getKey]
  | cons kv t ih =>
    by_cases hk : kv.1 = k
    · simp [objAssign, getKey, hk]
    · simpa [objAssign, getKey, hk] using ih

theorem getKey_objAssign_other {k k' : String} (h : k' ≠ k) (m : Manifest) (v : JVal) :
    getKey (objAssign m k v) k' = getKey m k' := by
  have h' : k ≠ k' := fun hx => h hx.symm
  induction m with
  | nil => simp [objAssign, getKey, h']
  | cons kv t ih =>
    by_cases hk : kv.1 = k
    · simp [objAssign, getKey, hk, h']
    · by_cases hk' : kv.1 = k'
      · simp [objAssign, getKey, hk, hk', h]
      · simpa [objAssign, getKey, hk, hk'] using ih

/-- Claim C2: for every parseable manifest document and every app name, the
rewritten manifest has no `description` key, no `author` key (and the rewrite
is total, so nothing fails when they were already absent), its `name` key equals
the app name, and its `version` key equals the literal string `0.1.0`,
regardless of the prior values of any of these keys. -/
theorem buildPackageJson_sets_fixed_fields (m : Manifest) (appName : String) :
    getKey (buildPackageJson m appName) "description" = none ∧
    getKey (buildPackageJson m appName) "author" = none ∧
    getKey (buildPackageJson m appName) "name" = some (.str appName) ∧
    getKey (buildPackageJson m appName) "version" = some (.str "0.1.0") := by
  refine ⟨?_, ?_, ?_, ?_⟩
  · rw [buildPackageJson, getKey_objAssign_other (by decide),
      getKey_objAssign_other (by decide), getKey_removeKey_other (by decide)]
    exact getKey_removeKey_self _ _
  · rw [buildPackageJson, getKey_objAssign_other (by decide),
      getKey_objAssign_other (by decide)]
    exact getKey_removeKey_self _ _
  · rw [buildPackageJson, getKey_objAssign_other (by decide)]
    exact getKey_objAssign_self _ _ _
  · exact getKey_objAssign_self _ _ _

/-- Claim C3: every key of the input manifest other than `description`,
`author`, `name` and `version` is bound in the rewritten manifest exactly as it
was bound in the input (all other fields pass through unchanged). -/
theorem buildPackageJson_frame (m : Manifest) (appName : String) (k : String)
    (h1 : k ≠ "description") (h2 : k ≠ "author")
    (h3 : k ≠ "name") (h4 : k ≠ "version") :
    getKey (buildPackageJson m appName) k = getKey m k := by
  rw [buildPackageJson, getKey_objAssign_other h4, getKey_objAssign_other h3,
    getKey_removeKey_other h2, getKey_removeKey_other h1]

theorem buildPackageJson_frame_witness :
    getKey (buildPackageJson
      [("license", JVal.str "MIT"), ("name", JVal.str "template")] "demo-app")
      "license" =
    getKey [("license", JVal.str "MIT"), ("name", JVal.str "template")]
      "license" :=
  buildPackageJson_frame _ "demo-app" "license"
    (by decide) (by decide) (by decide) (by decide)

/-- JavaScript `String.prototype.startsWith`, on strings viewed as character
sequences: `strStartsWith s pre` holds when `pre` is an initial run of `s`. -/
def strStartsWith : List Char → List Char → Bool
  | _, [] => true
  | [], _ :: _ => false
  | c :: cs, d :: ds => c == d && strStartsWith cs ds

theorem strStartsWith_iff (pre p : List Char) :
    strStartsWith p pre = true ↔ ∃ rest, p = pre ++ rest := by
  induction pre generalizing p with
  | nil => simp [strStartsWith]
  | cons d ds ih =>
    cases p with
    | nil =>
      simp only [strStartsWith, List.cons_append]
      constructor
      · intro h; cases h
      · rintro ⟨rest, h⟩; cases h
    | cons c cs =>
      simp only [strStartsWith, Bool.and_eq_true, beq_iff_eq, ih,
        List.cons_append, List.cons.injEq]
      constructor
      · rintro ⟨hc, rest, hr⟩; exact ⟨rest, hc, hr⟩
      · rintro ⟨rest, hc, hr⟩; exact ⟨hc, rest, hr⟩

/-- The `String.prototype.startsWith` operation on Lean strings. -/
def jsStartsWith (s pre : String) : Bool :=
  strStartsWith s.data pre.data

/-- The static supported-template mapping `TEMPLATE_MAP` (src/index.js lines
320-327): template identifier to template directory in the kit. -/
def TEMPLATE_MAP : List (String × String) :=
  [("next", "next-app"), ("react", "react-app"), ("ethereum", "ethereum-dapp"),
   ("astro", "astro-app"), ("extension", "extension"), ("ui", "ui-kit")]

/-- The property names every plain object literal inherits from
`Object.prototype` in Node's runtime. The JS `in` operator consults the
prototype chain, so `key in objectLiteral` is true for each of these names
even though none of them is an own key of the literal. -/
def objectProtoKeys : List String :=
  ["constructor", "hasOwnProperty", "isPrototypeOf", "propertyIsEnumerable",
   "toLocaleString", "toString", "valueOf", "__proto__", "__defineGetter__",
   "__defineSetter__", "__lookupGetter__", "__lookupSetter__"]

/-- Model of `isValidTemplate` (src/index.js lines 332-334): the JS expression
`template in TEMPLATE_MAP`. Because `in` consults the prototype chain, it
accepts the own keys of the object literal and every property name inherited
from `Object.prototype`. -/
def isValidTemplate (template : String) : Bool :=
  (TEMPLATE_MAP.lookup template).isSome || objectProtoKeys.contains template

/-- The constant `TARBALL_URL` (src/index.js lines 329-330). -/
def tarballUrl : String :=
  "https://codeload.github.com/StyleList94/stylish-app-kit/tar.gz/main"

/-- The archive-entry path filter of `extractTemplate` (src/index.js lines
453-463): the entry path must start with
`stylish-app-kit-main/templates/<template-directory>/`. -/
def tarEntryRoot (templateDir : String) : List Char :=
  ("stylish-app-kit-main/templates/" ++ templateDir ++ "/").data

/-- Drop one leading path component (everything up to and including the first
slash) from an archive entry name. -/
def dropComponent : List Char → List Char
  | [] => []
  | c :: cs => if c = '/' then cs else dropComponent cs

/-- The `strip: n` option of the tar extraction: remove the `n` leading path
components from an entry name. -/
def tarStrip : Nat → List Char → List Char
  | 0, p => p
  | n + 1, p => tarStrip n (dropComponent p)

/-- The per-entry behaviour of `extractTemplate` (src/index.js lines 453-463):
an entry is extracted exactly when the filter accepts its path, and its
destination name is the path with the leading three components stripped. -/
def extractEntry (templateDir : String) (p : List Char) : Option (List Char) :=
  if strStartsWith p (tarEntryRoot templateDir) then some (tarStrip 3 p)
  else none

theorem templateDir_of_lookup {t dir : String}
    (h : TEMPLATE_MAP.lookup t = some dir) :
    dir = "next-app" ∨ dir = "react-app" ∨ dir = "ethereum-dapp" ∨
    dir = "astro-app" ∨ dir = "extension" ∨ dir = "ui-kit" := by
  simp only [TEMPLATE_MAP, List.lookup] at h
  repeat' split at h
  all_goals simp_all

theorem tarStrip_three_root {t dir : String}
    (h : TEMPLATE_MAP.lookup t = some dir) (rest : List Char) :
    tarStrip 3 (tarEntryRoot dir ++ rest) = rest := by
  rcases templateDir_of_lookup h with h' | h' | h' | h' | h' | h' <;>
    subst h' <;> rfl

/-- Claim C4: for every archive entry path in the template-kit tarball, the
extraction step extracts the entry if and only if its path starts with
`stylish-app-kit-main/templates/<template-directory>/` for the chosen
template's directory, and every extracted entry is renamed by stripping that
three-component run, so it lands directly under the target directory. -/
theorem extractEntry_characterization (t dir : String)
    (h : TEMPLATE_MAP.lookup t = some dir) (p : List Char) :
    (∀ rest, p = tarEntryRoot dir ++ rest →
      extractEntry dir p = some rest) ∧
    ((¬ ∃ rest, p = tarEntryRoot dir ++ rest) → extractEntry dir p = none) := by
  constructor
  · intro rest hrest
    have hf : strStartsWith p (tarEntryRoot dir) = true :=
      (strStartsWith_iff _ _).2 ⟨rest, hrest⟩
    rw [extractEntry, if_pos hf, hrest, tarStrip_three_root h]
  · intro hno
    have hf : strStartsWith p (tarEntryRoot dir) ≠ true := fun hx =>
      hno ((strStartsWith_iff _ _).1 hx)
    rw [extractEntry, if_neg hf]

theorem extractEntry_characterization_witness :
    extractEntry "react-app"
      ("stylish-app-kit-main/templates/react-app/src/App.tsx").data =
      some ("src/App.tsx").data ∧
    extractEntry "react-app"
      ("stylish-app-kit-main/templates/next-app/app/page.tsx").data = none := by
  constructor
  · exact (extractEntry_characterization "react" "react-app" (by decide) _).1
      ("src/App.tsx").data (by decide)
  · refine (extractEntry_characterization "react" "react-app" (by decide) _).2 ?_
    rintro ⟨rest, hrest⟩
    have : strStartsWith
        ("stylish-app-kit-main/templates/next-app/app/page.tsx").data
        (tarEntryRoot "react-app") = true :=
      (strStartsWith_iff _ _).2 ⟨rest, hrest⟩
    simp [tarEntryRoot, strStartsWith] at this

/-- The package-manager detector `getPackageManager` (src/index.js lines
336-352), as a function of the `npm_config_user_agent` signal; the source reads
`process.env.npm_config_user_agent || ''`, modelled by `Option.getD` below. -/
def getPackageManager (userAgent : String) : String :=
  if jsStartsWith userAgent "yarn" then "yarn"
  else if jsStartsWith userAgent "pnpm" then "pnpm"
  else if jsStartsWith userAgent "bun" then "bun"
  else "npm"

/-- The detector as invoked: a missing environment signal is coalesced
to the empty string by `|| ''`. -/
def getPackageManagerOfEnv (userAgent : Option String) : String :=
  getPackageManager (userAgent.getD "")

/-- Claim C9: the package-manager detector is a pure function of the user-agent
signal, returning `yarn`, `pnpm` and `bun` for the corresponding signal
run-starts checked in that order, and `npm` in every other case, including the
empty and the missing signal; equal signals always yield an equal result. -/
theorem getPackageManager_decision_table (ua : String) :
    (jsStartsWith ua "yarn" = true → getPackageManager ua = "yarn") ∧
    (jsStartsWith ua "yarn" = false → jsStartsWith ua "pnpm" = true →
      getPackageManager ua = "pnpm") ∧
    (jsStartsWith ua "yarn" = false → jsStartsWith ua "pnpm" = false →
      jsStartsWith ua "bun" = true → getPackageManager ua = "bun") ∧
    (jsStartsWith ua "yarn" = false → jsStartsWith ua "pnpm" = false →
      jsStartsWith ua "bun" = false → getPackageManager ua = "npm") ∧
    getPackageManagerOfEnv none = "npm" ∧
    getPackageManagerOfEnv (some "") = "npm" ∧
    (∀ ua', ua = ua' → getPackageManager ua = getPackageManager ua') := by
  refine ⟨?_, ?_, ?_, ?_, by decide, by decide, ?_⟩
  · intro h; simp [getPackageManager, h]
  · intro h1 h2; simp [getPackageManager, h1, h2]
  · intro h1 h2 h3; simp [getPackageManager, h1, h2, h3]
  · intro h1 h2 h3; simp [getPackageManager, h1, h2, h3]
  · intro ua' h; rw [h]

theorem getPackageManager_decision_table_witness :
    getPackageManager "pnpm/9.15.0 npm/? node/v22.0.0 linux x64" = "pnpm" :=
  (getPackageManager_decision_table _).2.1 (by decide) (by decide)

/-- A shelled-out command: executable, arguments, and whether `execCommand`
suppresses its output (`stdio: 'ignore'`). -/
structure Cmd where
  exe : String
  args : List String
  silent : Bool
  deriving DecidableEq

/-- The observable side effects of a run, in order of occurrence. Purely
informational console output (banners, spinners, next-step hints) is not
traced; error reports that the claims talk about are. -/
inductive Effect where
  | logTemplateNotFound (template : String)
  | logAlreadyExists (appName : String)
  | logRawError (msg : String)
  | logCommandFailed (exe : String)
  | dirCreated (path : List String)
  | fetched (url : String)
  | tempFileCreated (file : String)
  | tarExtracted (tarFile : String) (templateDir : String) (dest : List String)
  | chdir (path : List String)
  | fileWritten (path : List String)
  | fileUnlinked (file : String)
  | ranCommand (c : Cmd)
  deriving DecidableEq

/-- How a step relinquishes control: normal completion, `process.exit code`,
or a thrown (and uncaught) error. -/
inductive Flow where
  | ok
  | exited (code : Nat)
  | threw
  deriving DecidableEq

/-- A step's observable effects and the way it finished. -/
structure StepOut where
  trace : List Effect
  flow : Flow
  deriving DecidableEq

/-- Sequencing of pipeline steps: the second step runs only when the first
completed normally; `process.exit` and thrown errors abort the rest. -/
def andThen (a : StepOut) (f : Unit → StepOut) : StepOut :=
  match a.flow with
  | .ok => ⟨a.trace ++ (f ()).trace, (f ()).flow⟩
  | _ => a

/-- The possible outcomes of `mkdirSync`. -/
inductive MkdirOutcome where
  | ok
  | eexist
  | failed (msg : String)
  deriving DecidableEq

/-- The environment a single run interacts with: the user-agent signal, the
working directory, and the success or failure of each external operation the
pipeline delegates. -/
structure World where
  userAgent : Option String
  cwd : List String
  tempStamp : Nat
  mkdirResult : MkdirOutcome
  fetchOk : Bool
  streamOk : Bool
  extractOk : Bool
  manifestDoc : Option Manifest
  cmdStatus : Cmd → Bool

/-- Model of `execCommand` (src/index.js lines 354-363): run the command; on non-zero
status log `Command failed: <exe>` and `process.exit(1)`. It never throws. -/
def execCommand (w : World) (c : Cmd) : StepOut :=
  if w.cmdStatus c then ⟨[.ranCommand c], .ok⟩
  else ⟨[.ranCommand c, .logCommandFailed c.exe], .exited 1⟩

/-- Model of `validateTemplate` (src/index.js lines 405-414): purely local membership
check against `TEMPLATE_MAP`; on failure it logs and exits 1. -/
def validateTemplate (template : String) : StepOut :=
  if isValidTemplate template then ⟨[], .ok⟩
  else ⟨[.logTemplateNotFound template], .exited 1⟩

/-- The path `join(cwd, appName)`, with paths as component lists. -/
def appPathOf (w : World) (appName : String) : List String :=
  w.cwd ++ [appName]

/-- Model of `createProjectDirectory` (src/index.js lines 416-438): `mkdirSync` the
target; on `EEXIST` report the distinct already-exists condition and exit 1;
on any other error report the raw error and exit 1. -/
def createProjectDirectory (w : World) (appName : String) : StepOut :=
  match w.mkdirResult with
  | .ok => ⟨[.dirCreated (appPathOf w appName)], .ok⟩
  | .eexist => ⟨[.logAlreadyExists appName], .exited 1⟩
  | .failed msg => ⟨[.logRawError msg], .exited 1⟩

/-- The temporary archive name `stylish-template-<Date.now()>.tar.gz`
(src/index.js line 441). -/
def tempFileName (w : World) : String :=
  "stylish-template-" ++ toString w.tempStamp ++ ".tar.gz"

/-- Model of `downloadTarball` (src/index.js lines 440-451): fetch the tarball; a fetch
error or a non-ok response throws before the temp file exists; the write
stream creates the temp file, so a streaming failure throws with a partial
temp file on disk. The returned option is the caller's view: `none` when the
function threw, because the caller's `tarFile` variable is only assigned from
the function's normal return value. -/
def downloadTarball (w : World) : StepOut × Option String :=
  if w.fetchOk then
    if w.streamOk then
      (⟨[.fetched tarballUrl, .tempFileCreated (tempFileName w)], .ok⟩,
        some (tempFileName w))
    else
      (⟨[.fetched tarballUrl, .tempFileCreated (tempFileName w)], .threw⟩, none)
  else
    (⟨[.fetched tarballUrl], .threw⟩, none)

/-- The lookup `TEMPLATE_MAP[template]` as read by `extractTemplate` (src/index.js line
454); only reached for validated templates. -/
def templateDirOf (template : String) : String :=
  (TEMPLATE_MAP.lookup template).getD ""

/-- Model of `extractTemplate` as a pipeline step (src/index.js lines 453-463): the
per-entry behaviour is `extractEntry`; here only success or a thrown
extraction error matters. -/
def extractTemplateStep (w : World) (tarFile templateDir : String)
    (destPath : List String) : StepOut :=
  if w.extractOk then ⟨[.tarExtracted tarFile templateDir destPath], .ok⟩
  else ⟨[], .threw⟩

/-- The `buildPackageJson` call as a pipeline step (src/index.js lines 365-386,
called at line 481): read and parse `package.json`; on success write the
rewritten manifest to `package.json` under the current working directory; on
any error log and `process.exit(1)` - which terminates at once, skipping every
pending `finally` block. -/
def buildPackageJsonStep (w : World) (cwdNow : List String) (_appName : String) :
    StepOut :=
  match w.manifestDoc with
  | some _ => ⟨[.fileWritten (cwdNow ++ ["package.json"])], .ok⟩
  | none => ⟨[.logRawError "Run command failed"], .exited 1⟩

/-- Model of `downloadAndExtractTemplate` (src/index.js lines 465-494): provision the
directory, download the tarball, extract, chdir, rewrite the manifest; the
`finally` block unlinks the temp archive only when the `tarFile` variable was
assigned, and does not run at all when the process exits inside the try. -/
def downloadAndExtractTemplate (w : World) (appName template : String) :
    StepOut :=
  let dirStep := createProjectDirectory w appName
  match dirStep.flow with
  | .ok =>
    let appPath := appPathOf w appName
    let dl := downloadTarball w
    match dl.2 with
    | none => ⟨dirStep.trace ++ dl.1.trace, .threw⟩
    | some tarFile =>
      let ex := extractTemplateStep w tarFile (templateDirOf template) appPath
      match ex.flow with
      | .ok =>
        let bp := buildPackageJsonStep w appPath appName
        match bp.flow with
        | .ok =>
          ⟨dirStep.trace ++ dl.1.trace ++ ex.trace ++ [.chdir appPath] ++
            bp.trace ++ [.fileUnlinked tarFile], .ok⟩
        | flow =>
          ⟨dirStep.trace ++ dl.1.trace ++ ex.trace ++ [.chdir appPath] ++
            bp.trace, flow⟩
      | _ =>
        ⟨dirStep.trace ++ dl.1.trace ++ ex.trace ++ [.fileUnlinked tarFile],
          .threw⟩
  | _ => dirStep

/-- The silent lockfile-removal helper invocation of `installDependencies`:
`npx rimraf ./pnpm-lock.yaml` (only ever built with `npx`, since the `pnpm
dlx` variant is dead code behind the `!== 'pnpm'` guard). -/
def removePnpmLockCmd : Cmd :=
  ⟨"npx", ["rimraf", "./pnpm-lock.yaml"], true⟩

/-- The install subcommand of the resolved manager, output streamed. -/
def installCmd (pm : String) : Cmd :=
  ⟨pm, ["install"], false⟩

/-- Model of `installDependencies` (src/index.js lines 496-534): when the resolved
manager is not pnpm, silently remove `./pnpm-lock.yaml` first, then run the
manager's install subcommand. -/
def installDependencies (w : World) : StepOut :=
  let pm := getPackageManagerOfEnv w.userAgent
  let executeModule := if pm = "pnpm" then "pnpm" else "npx"
  let removeLockfileArgs :=
    if pm = "pnpm" then ["dlx", "rimraf", "./pnpm-lock.yaml"]
    else ["rimraf", "./pnpm-lock.yaml"]
  andThen
    (if pm ≠ "pnpm" then execCommand w ⟨executeModule, removeLockfileArgs, true⟩
     else ⟨[], .ok⟩)
    (fun _ => execCommand w (installCmd pm))

def gitInitCmd : Cmd := ⟨"git", ["init"], true⟩

def gitAddCmd : Cmd := ⟨"git", ["add", "."], true⟩

def gitCommitCmd : Cmd := ⟨"git", ["commit", "-m", "initial commit"], true⟩

def gitBranchCmd : Cmd := ⟨"git", ["branch", "-m", "main"], true⟩

/-- Model of `initializeGitRepository` of the current revision (src/index.js lines
536-554): init, stage all, commit `initial commit`, rename the branch to
`main`; there is no removal of inherited version-control metadata. -/
def initializeGitRepository (w : World) : StepOut :=
  andThen (execCommand w gitInitCmd) fun _ =>
  andThen (execCommand w gitAddCmd) fun _ =>
  andThen (execCommand w gitCommitCmd) fun _ =>
  execCommand w gitBranchCmd

/-- The `.git` removal helper of the earlier clone-based revision's
initializer (src/index.js lines 208-227): `npx rimraf ./.git`, or
`pnpm dlx rimraf ./.git` when pnpm resolved. -/
def legacyRemoveGitCmd (w : World) : Cmd :=
  if getPackageManagerOfEnv w.userAgent = "pnpm" then
    ⟨"pnpm", ["dlx", "rimraf", "./.git"], true⟩
  else
    ⟨"npx", ["rimraf", "./.git"], true⟩

/-- Model of `initializeGitRepository` of the earlier clone-based revision
(src/index.js lines 208-227): remove the cloned template's `.git` first, then
init, stage, commit, rename. -/
def initializeGitRepositoryLegacy (w : World) : StepOut :=
  andThen (execCommand w (legacyRemoveGitCmd w)) fun _ =>
  andThen (execCommand w gitInitCmd) fun _ =>
  andThen (execCommand w gitAddCmd) fun _ =>
  andThen (execCommand w gitCommitCmd) fun _ =>
  execCommand w gitBranchCmd

/-- Model of `run` (src/index.js lines 570-577): validation strictly first, then the
fetch-and-extract step, dependency installation, repository initialization.
The completion message is console-only and untraced. -/
def run (w : World) (appName template : String) : StepOut :=
  andThen (validateTemplate template) fun _ =>
  andThen (downloadAndExtractTemplate w appName template) fun _ =>
  andThen (installDependencies w) fun _ =>
  initializeGitRepository w

/-- Does this effect run a deletion helper (`rimraf`)? -/
def isRemovalEffect : Effect → Bool
  | .ranCommand c => c.exe = "rimraf" || c.args.contains "rimraf"
  | _ => false

/-- Does this effect delete the named file via the `rimraf` helper? -/
def removesFile (f : String) : Effect → Bool
  | .ranCommand c => c.args.contains "rimraf" && c.args.contains f
  | _ => false

/-- Is this effect an unlink of some file? -/
def isUnlink : Effect → Bool
  | .fileUnlinked _ => true
  | _ => false

/-- A world in which every external operation succeeds: empty environment
signal (npm), all subprocesses exit 0. -/
def allOkWorld : World where
  userAgent := none
  cwd := ["", "home", "style"]
  tempStamp := 94
  mkdirResult := .ok
  fetchOk := true
  streamOk := true
  extractOk := true
  manifestDoc := some [("name", .str "template"), ("license", .str "MIT")]
  cmdStatus := fun _ => true

/-- Like `allOkWorld`, except that streaming the response body into the temp file
fails partway: the fetch succeeded, the write stream already created the file,
and `downloadTarball` threw. -/
def streamFailWorld : World :=
  { allOkWorld with streamOk := false }

/-- Like `allOkWorld`, except that the fetched template's `package.json` cannot be
read or parsed, so `buildPackageJson` hits its catch and exits the process. -/
def badManifestWorld : World :=
  { allOkWorld with manifestDoc := none }

/-- Like `allOkWorld`, except that the target directory already exists. -/
def existsWorld : World :=
  { allOkWorld with mkdirResult := .eexist }

/-- Like `allOkWorld`, but invoked from pnpm. -/
def pnpmWorld : World :=
  { allOkWorld with userAgent := some "pnpm/9.15.0 npm/? node/v22.0.0 linux x64" }

theorem lookup_TEMPLATE_MAP_isSome_iff (t : String) :
    (TEMPLATE_MAP.lookup t).isSome = true ↔
      t ∈ (["next", "react", "ethereum", "astro", "extension", "ui"] :
        List String) := by
  simp only [TEMPLATE_MAP, List.lookup]
  by_cases h1 : t = "next"
  · simp [h1]
  by_cases h2 : t = "react"
  · simp [h2]
  by_cases h3 : t = "ethereum"
  · simp [h3]
  by_cases h4 : t = "astro"
  · simp [h4]
  by_cases h5 : t = "extension"
  · simp [h5]
  by_cases h6 : t = "ui"
  · simp [h6]
  have b1 : (t == "next") = false := by simpa using h1
  have b2 : (t == "react") = false := by simpa using h2
  have b3 : (t == "ethereum") = false := by simpa using h3
  have b4 : (t == "astro") = false := by simpa using h4
  have b5 : (t == "extension") = false := by simpa using h5
  have b6 : (t == "ui") = false := by simpa using h6
  simp [b1, b2, b3, b4, b5, b6, h1, h2, h3, h4, h5, h6]

theorem isValidTemplate_iff (t : String) :
    isValidTemplate t = true ↔
      t ∈ (["next", "react", "ethereum", "astro", "extension", "ui"] :
        List String) ∨ t ∈ objectProtoKeys := by
  rw [isValidTemplate, Bool.or_eq_true]
  exact or_congr (lookup_TEMPLATE_MAP_isSome_iff t) List.elem_iff

/-- Claim C1 counterexample: `toString` is not a key of the static supported
set, yet the `in`-operator validation accepts it (it is inherited from
`Object.prototype`), so the run proceeds past validation: the target directory
is created and the tarball fetch is attempted, falsifying the claim that every
identifier outside the six keys exits non-zero before any filesystem or
network side effect. -/
theorem run_accepts_proto_key_counterexample :
    ("toString" ∉
      (["next", "react", "ethereum", "astro", "extension", "ui"] :
        List String)) ∧
    isValidTemplate "toString" = true ∧
    Effect.dirCreated (appPathOf allOkWorld "demo-app") ∈
      (run allOkWorld "demo-app" "toString").trace ∧
    Effect.fetched tarballUrl ∈
      (run allOkWorld "demo-app" "toString").trace := by
  decide

/-- Claim C1 (amended): for every template identifier that is neither a key of
the static supported set (next, react, ethereum, astro, extension, ui) nor a
property name inherited from `Object.prototype` (the `in` operator wrongly
accepts those, e.g. `toString`), the pipeline terminates with exit status 1
having produced nothing but the rejection message - in particular no directory
creation, no fetch, no extraction, no subprocess - in every environment:
for such identifiers validation strictly precedes every filesystem and
network side effect. -/
theorem run_rejects_unknown_template (w : World) (appName template : String)
    (h : template ∉ (["next", "react", "ethereum", "astro", "extension", "ui"] :
      List String))
    (hp : template ∉ objectProtoKeys) :
    (run w appName template).flow = .exited 1 ∧
    (run w appName template).trace = [.logTemplateNotFound template] := by
  have hv : isValidTemplate template = false := by
    rcases hb : isValidTemplate template with _ | _
    · rfl
    · rcases (isValidTemplate_iff template).1 hb with hx | hx
      · exact absurd hx h
      · exact absurd hx hp
  constructor <;> simp [run, andThen, validateTemplate, hv]

theorem run_rejects_unknown_template_witness :
    (run allOkWorld "demo-app" "bogus").flow = .exited 1 ∧
    (run allOkWorld "demo-app" "bogus").trace =
      [.logTemplateNotFound "bogus"] :=
  run_rejects_unknown_template allOkWorld "demo-app" "bogus"
    (by decide) (by decide)

/-- Claim C8: when the target path `cwd/appName` already exists, the directory
provisioner reports the distinct already-exists condition and exits 1 without
touching the file system, both at the provisioner and for the whole pipeline;
any other directory-creation failure is surfaced as the raw underlying error,
also exiting 1. -/
theorem createProjectDirectory_conflict (w : World) (appName template : String) :
    (w.mkdirResult = .eexist →
      (createProjectDirectory w appName).flow = .exited 1 ∧
      (createProjectDirectory w appName).trace = [.logAlreadyExists appName]) ∧
    (∀ msg, w.mkdirResult = .failed msg →
      (createProjectDirectory w appName).flow = .exited 1 ∧
      (createProjectDirectory w appName).trace = [.logRawError msg]) ∧
    (isValidTemplate template = true → w.mkdirResult = .eexist →
      (run w appName template).flow = .exited 1 ∧
      (run w appName template).trace = [.logAlreadyExists appName]) := by
  refine ⟨fun h => ?_, fun msg h => ?_, fun hv h => ?_⟩
  · constructor <;> simp [createProjectDirectory, h]
  · constructor <;> simp [createProjectDirectory, h]
  · constructor <;>
      simp [run, andThen, validateTemplate, hv, downloadAndExtractTemplate,
        createProjectDirectory, h]

theorem createProjectDirectory_conflict_witness :
    (run existsWorld "demo-app" "next").flow = .exited 1 ∧
    (run existsWorld "demo-app" "next").trace =
      [.logAlreadyExists "demo-app"] :=
  (createProjectDirectory_conflict existsWorld "demo-app" "next").2.2
    (by decide) rfl

/-- Claim C5 counterexample: two concrete runs in which the temporary archive
file is created during the fetch-and-extract step and yet no unlink happens on
its exit path. In `streamFailWorld` the download stream fails after the
write stream created the file, so the caller's `tarFile` variable was never
assigned and the `finally` block unlinks nothing; in `badManifestWorld` the
manifest rewrite calls `process.exit(1)`, which skips the pending `finally`. -/
theorem tempfile_cleanup_counterexample :
    (Effect.tempFileCreated (tempFileName streamFailWorld) ∈
        (downloadAndExtractTemplate streamFailWorld "demo-app" "next").trace ∧
      ∀ e ∈ (downloadAndExtractTemplate streamFailWorld "demo-app" "next").trace,
        isUnlink e = false) ∧
    (Effect.tempFileCreated (tempFileName badManifestWorld) ∈
        (downloadAndExtractTemplate badManifestWorld "demo-app" "next").trace ∧
      ∀ e ∈ (downloadAndExtractTemplate badManifestWorld "demo-app" "next").trace,
        isUnlink e = false) := by
  decide

/-- Claim C5 (amended): after a successful directory provisioning, the
temporary archive is created exactly when the fetch succeeds, and it is
unlinked on exactly these exit paths: the success path and the
extraction-failure path. It is not unlinked when the download stream fails
partway (the partial file exists but the caller's `tarFile` variable was never
assigned) nor when the manifest rewrite fails (`process.exit(1)` skips the
pending `finally`). -/
theorem tempfile_cleanup (w : World) (appName template : String)
    (hmk : w.mkdirResult = .ok) :
    (Effect.tempFileCreated (tempFileName w) ∈
        (downloadAndExtractTemplate w appName template).trace ↔
      w.fetchOk = true) ∧
    (Effect.fileUnlinked (tempFileName w) ∈
        (downloadAndExtractTemplate w appName template).trace ↔
      w.fetchOk = true ∧ w.streamOk = true ∧
        (w.extractOk = false ∨ w.manifestDoc.isSome = true)) := by
  rcases w with ⟨ua, cwd, ts, mk, f, st, ex, md, cs⟩
  simp only at hmk
  subst hmk
  cases f <;> cases st <;> cases ex <;> cases md <;>
    simp [downloadAndExtractTemplate, createProjectDirectory, downloadTarball,
      extractTemplateStep, buildPackageJsonStep, appPathOf, tempFileName]

theorem tempfile_cleanup_witness :
    Effect.fileUnlinked (tempFileName allOkWorld) ∈
      (downloadAndExtractTemplate allOkWorld "demo-app" "next").trace :=
  ((tempfile_cleanup allOkWorld "demo-app" "next" rfl).2).2
    ⟨rfl, rfl, Or.inr rfl⟩

/-- Claim C6 counterexample: under the resolved manager npm, a shipped yarn
lockfile is not deleted (the only removal ever issued targets
`./pnpm-lock.yaml`), and under the resolved manager pnpm no lockfile removal
is issued at all, so a shipped npm or yarn lockfile survives. -/
theorem lockfile_cleanup_counterexample :
    (getPackageManagerOfEnv allOkWorld.userAgent = "npm" ∧
      ∀ e ∈ (installDependencies allOkWorld).trace,
        removesFile "./yarn.lock" e = false) ∧
    (getPackageManagerOfEnv pnpmWorld.userAgent = "pnpm" ∧
      ∀ e ∈ (installDependencies pnpmWorld).trace,
        isRemovalEffect e = false) := by
  decide

/-- Claim C6 (amended): before the install subcommand, when the resolved
manager is not pnpm, exactly one silent helper invocation
(`npx rimraf ./pnpm-lock.yaml`) deletes the template's pnpm lockfile; when the
resolved manager is pnpm, no lockfile is deleted. No other lockfile (yarn or
npm) is ever removed. A failing helper aborts with exit status 1 before the
install runs. -/
theorem installDependencies_lockfile_policy (w : World) :
    (getPackageManagerOfEnv w.userAgent ≠ "pnpm" →
      w.cmdStatus removePnpmLockCmd = true →
      w.cmdStatus (installCmd (getPackageManagerOfEnv w.userAgent)) = true →
      (installDependencies w).trace =
        [.ranCommand removePnpmLockCmd,
         .ranCommand (installCmd (getPackageManagerOfEnv w.userAgent))] ∧
      removesFile "./pnpm-lock.yaml" (.ranCommand removePnpmLockCmd) = true ∧
      removesFile "./yarn.lock" (.ranCommand removePnpmLockCmd) = false ∧
      removesFile "./package-lock.json" (.ranCommand removePnpmLockCmd) = false ∧
      removePnpmLockCmd.silent = true) ∧
    (getPackageManagerOfEnv w.userAgent ≠ "pnpm" →
      w.cmdStatus removePnpmLockCmd = false →
      (installDependencies w).trace =
        [.ranCommand removePnpmLockCmd, .logCommandFailed "npx"] ∧
      (installDependencies w).flow = .exited 1) ∧
    (getPackageManagerOfEnv w.userAgent = "pnpm" →
      (∀ e ∈ (installDependencies w).trace, isRemovalEffect e = false) ∧
      (installDependencies w).trace.head? =
        some (.ranCommand (installCmd "pnpm"))) := by
  refine ⟨fun hpm h1 h2 => ?_, fun hpm h1 => ?_, fun hpm => ?_⟩
  · have h1' : w.cmdStatus ⟨"npx", ["rimraf", "./pnpm-lock.yaml"], true⟩ = true := h1
    refine ⟨?_, by decide, by decide, by decide, rfl⟩
    simp [installDependencies, andThen, execCommand, hpm, h1', h2,
      removePnpmLockCmd]
  · have h1' : w.cmdStatus ⟨"npx", ["rimraf", "./pnpm-lock.yaml"], true⟩ = false := h1
    constructor <;>
      simp [installDependencies, andThen, execCommand, hpm, h1',
        removePnpmLockCmd]
  · rcases hs : w.cmdStatus (installCmd "pnpm") with _ | _ <;>
      refine ⟨?_, ?_⟩ <;>
      simp [installDependencies, andThen, execCommand, hpm, hs] <;>
      decide

theorem installDependencies_lockfile_policy_witness :
    (installDependencies allOkWorld).trace =
      [.ranCommand removePnpmLockCmd,
       .ranCommand (installCmd (getPackageManagerOfEnv allOkWorld.userAgent))] ∧
    removesFile "./pnpm-lock.yaml" (.ranCommand removePnpmLockCmd) = true ∧
    removesFile "./yarn.lock" (.ranCommand removePnpmLockCmd) = false ∧
    removesFile "./package-lock.json" (.ranCommand removePnpmLockCmd) = false ∧
    removePnpmLockCmd.silent = true :=
  (installDependencies_lockfile_policy allOkWorld).1 (by decide) rfl rfl

/-- Claim C7 counterexample: in the current revision's repository initializer,
an all-successful run performs exactly `git init`, `git add .`,
`git commit -m "initial commit"`, `git branch -m main` - there is no removal
of inherited version-control metadata anywhere in the sequence, so the claimed
leading removal sub-step does not exist. -/
theorem gitInit_no_removal_counterexample :
    (initializeGitRepository allOkWorld).trace =
      [.ranCommand gitInitCmd, .ranCommand gitAddCmd,
       .ranCommand gitCommitCmd, .ranCommand gitBranchCmd] ∧
    ∀ e ∈ (initializeGitRepository allOkWorld).trace,
      isRemovalEffect e = false := by
  decide

/-- Claim C7 (amended): the current repository initializer performs, in order,
repository initialization, staging of all files, one commit with the fixed
message `initial commit`, and the branch rename to `main`; the failure of any
sub-step aborts the remaining sub-steps with exit status 1 and no rollback.
There is no metadata-removal sub-step: that step exists only in the earlier
clone-based revision's initializer, which runs the `rimraf ./.git` helper
first and then the same four commands. -/
theorem initializeGitRepository_sequence (w : World) :
    (w.cmdStatus gitInitCmd = true → w.cmdStatus gitAddCmd = true →
     w.cmdStatus gitCommitCmd = true → w.cmdStatus gitBranchCmd = true →
      (initializeGitRepository w).trace =
        [.ranCommand gitInitCmd, .ranCommand gitAddCmd,
         .ranCommand gitCommitCmd, .ranCommand gitBranchCmd] ∧
      (initializeGitRepository w).flow = .ok) ∧
    (w.cmdStatus gitInitCmd = false →
      (initializeGitRepository w).trace =
        [.ranCommand gitInitCmd, .logCommandFailed "git"] ∧
      (initializeGitRepository w).flow = .exited 1) ∧
    (w.cmdStatus gitInitCmd = true → w.cmdStatus gitAddCmd = false →
      (initializeGitRepository w).trace =
        [.ranCommand gitInitCmd, .ranCommand gitAddCmd,
         .logCommandFailed "git"] ∧
      (initializeGitRepository w).flow = .exited 1) ∧
    (w.cmdStatus gitInitCmd = true → w.cmdStatus gitAddCmd = true →
     w.cmdStatus gitCommitCmd = false →
      (initializeGitRepository w).trace =
        [.ranCommand gitInitCmd, .ranCommand gitAddCmd,
         .ranCommand gitCommitCmd, .logCommandFailed "git"] ∧
      (initializeGitRepository w).flow = .exited 1) ∧
    (w.cmdStatus gitInitCmd = true → w.cmdStatus gitAddCmd = true →
     w.cmdStatus gitCommitCmd = true → w.cmdStatus gitBranchCmd = false →
      (initializeGitRepository w).trace =
        [.ranCommand gitInitCmd, .ranCommand gitAddCmd,
         .ranCommand gitCommitCmd, .ranCommand gitBranchCmd,
         .logCommandFailed "git"] ∧
      (initializeGitRepository w).flow = .exited 1) ∧
    (w.cmdStatus (legacyRemoveGitCmd w) = true →
     w.cmdStatus gitInitCmd = true → w.cmdStatus gitAddCmd = true →
     w.cmdStatus gitCommitCmd = true → w.cmdStatus gitBranchCmd = true →
      (initializeGitRepositoryLegacy w).trace =
        [.ranCommand (legacyRemoveGitCmd w), .ranCommand gitInitCmd,
         .ranCommand gitAddCmd, .ranCommand gitCommitCmd,
         .ranCommand gitBranchCmd] ∧
      isRemovalEffect (.ranCommand (legacyRemoveGitCmd w)) = true) := by
  have e1 : gitInitCmd.exe = "git" := rfl
  have e2 : gitAddCmd.exe = "git" := rfl
  have e3 : gitCommitCmd.exe = "git" := rfl
  have e4 : gitBranchCmd.exe = "git" := rfl
  refine ⟨fun h1 h2 h3 h4 => ?_, fun h1 => ?_, fun h1 h2 => ?_,
    fun h1 h2 h3 => ?_, fun h1 h2 h3 h4 => ?_, fun h0 h1 h2 h3 h4 => ?_⟩
  · constructor <;>
      simp [initializeGitRepository, andThen, execCommand, h1, h2, h3, h4]
  · constructor <;>
      simp [initializeGitRepository, andThen, execCommand, h1, e1]
  · constructor <;>
      simp [initializeGitRepository, andThen, execCommand, h1, h2, e2]
  · constructor <;>
      simp [initializeGitRepository, andThen, execCommand, h1, h2, h3, e3]
  · constructor <;>
      simp [initializeGitRepository, andThen, execCommand, h1, h2, h3, h4, e4]
  · constructor
    · simp [initializeGitRepositoryLegacy, andThen, execCommand, h0, h1, h2,
        h3, h4]
    · rw [legacyRemoveGitCmd]
      split <;> decide

theorem initializeGitRepository_sequence_witness :
    (initializeGitRepository allOkWorld).trace =
      [.ranCommand gitInitCmd, .ranCommand gitAddCmd,
       .ranCommand gitCommitCmd, .ranCommand gitBranchCmd] ∧
    (initializeGitRepository allOkWorld).flow = .ok :=
  (initializeGitRepository_sequence allOkWorld).1 rfl rfl rfl rfl

/-- The observable file-system interaction of one `buildPackageJson` call:
which path was read, and - when the read and parse succeeded - which path was
written with which document. -/
structure BpjRun where
  readPath : List String
  written : Option (List String × Manifest)

/-- Model of `buildPackageJson` with its file-system interaction explicit (src/index.js
lines 365-386): the manifest is read from the given path parameter, but the
output is written to `_resolve(process.cwd(), 'package.json')`, that is to
`package.json` under the process's current working directory. -/
def buildPackageJsonRun (cwd inputPath : List String)
    (contents : Option Manifest) (appName : String) : BpjRun where
  readPath := inputPath
  written := contents.map
    (fun m => (cwd ++ ["package.json"], buildPackageJson m appName))

/-- Claim C10: the manifest rewriter always writes to `package.json` resolved
against the current working directory, for every input manifest path; the
input path only selects the file read, and the read and write paths coincide
only when the current working directory is the directory containing the input
manifest. -/
theorem buildPackageJson_write_target (cwd p1 p2 : List String)
    (doc : Manifest) (appName : String) :
    ((buildPackageJsonRun cwd p1 (some doc) appName).written.map Prod.fst =
      some (cwd ++ ["package.json"])) ∧
    ((buildPackageJsonRun cwd p1 (some doc) appName).written.map Prod.fst =
      (buildPackageJsonRun cwd p2 (some doc) appName).written.map Prod.fst) ∧
    ((buildPackageJsonRun cwd p1 (some doc) appName).readPath = p1) ∧
    (∀ wp m',
      (buildPackageJsonRun cwd p1 (some doc) appName).written = some (wp, m') →
      wp = p1 → p1.dropLast = cwd) := by
  refine ⟨rfl, rfl, rfl, ?_⟩
  rintro wp m' hw heq
  have h2 : (cwd ++ ["package.json"], buildPackageJson doc appName) = (wp, m') :=
    Option.some.inj hw
  have hwp : cwd ++ ["package.json"] = wp := congrArg Prod.fst h2
  rw [← heq, ← hwp]
  simp

theorem buildPackageJson_write_target_witness :
    (["", "proj", "package.json"] : List String).dropLast = ["", "proj"] :=
  (buildPackageJson_write_target ["", "proj"] ["", "proj", "package.json"]
      [] [] "demo-app").2.2.2
    (["", "proj"] ++ ["package.json"]) (buildPackageJson [] "demo-app")
    rfl rfl

end CreateStylishApp
